import Mathlib

/-!
Verification of the referential-integrity core of the `bidir-forms` service.

The data model and operations below are a shallow embedding of the
repository's controllers:
  * `src/controllers/form.js`    (createForm, updateForm, removeForm)
  * `src/unnamed/part_000`       (the feature-complete question controller:
    createQuestion, createGroupedQuestion, createFIBQuestion,
    createMultipleChoiceQuestion, createSingleChoiceQuestion,
    createYNQuestion, updateQuestion, removeQuestion)
  * `src/controllers/section.js` (createSection, updateSection, removeSection)

The entity store (the repository's `dal/*.js` layer), the enums
(`lib/enums.js`) and the permission checker (`lib/permissions.js`) are
repository code not included under `src/`; they are modelled from the
specification (sections 3, 4.3 and 6) where noted.

JavaScript truthiness that the controllers rely on is modelled explicitly:
an absent field is `Option.none`; `!body.x` on an object/array field is
`Option.isNone` (an empty array is truthy in JavaScript); `!body.show` on a
boolean field is true when the field is absent or `false`.
-/

/-- Outcome of a controller call: the produced entity or a typed failure
message (the `message` of the thrown `CustomError`). -/
inductive Res (α : Type) where
  | ok (val : α)
  | err (msg : String)
deriving DecidableEq

def Res.isOk {α : Type} : Res α → Bool
  | .ok _ => true
  | .err _ => false

def Res.isErr {α : Type} : Res α → Bool
  | .ok _ => false
  | .err _ => true

/-- A stored Form document (`models/form.js` shape, per spec section 3).
Identifiers are opaque; they are modelled as `Nat` drawn from a fresh-id
counter. `questions` and `sections` are the child-reference lists. -/
structure FormR where
  id : Nat
  ftype : String
  title : String
  layout : Option String
  has_sections : Bool
  signatures : List String
  questions : List Nat
  sections : List Nat
  created_by : Nat
deriving DecidableEq

/-- A stored Section document (spec section 3). -/
structure SectionR where
  id : Nat
  title : String
  questions : List Nat
deriving DecidableEq

/-- A stored Question document (spec section 3).  Fields that the HTTP
payload may omit are stored as `Option` (the Mongo document simply lacks
them); `sub_questions` is the Sub-Question reference list. -/
structure QuestionR where
  id : Nat
  question_text : Option String
  qtype : Option String
  number : Option String
  «show» : Option Bool
  prerequisites : Option (List String)
  options : Option (List String)
  sub_questions : List Nat
deriving DecidableEq

/-- The entity store: one collection per entity kind plus a fresh-id
counter standing for MongoDB ObjectId generation.
Modelled from the spec: section 4.3 (the `dal/*.js` adapters are not part
of `src/`). -/
structure Store where
  forms : List FormR
  sections : List SectionR
  questions : List QuestionR
  nextId : Nat
deriving DecidableEq

def emptyStore : Store := { forms := [], sections := [], questions := [], nextId := 1 }

/-- Modelled from the spec: section 6 permission checker contract
(`lib/permissions.js` is not under `src/`): `isPermitted(actor, action)`
for action CREATE / UPDATE / VIEW. -/
structure Actor where
  id : Nat
  can_create : Bool
  can_update : Bool
  can_view : Bool
deriving DecidableEq

def isPermitted (u : Actor) (action : String) : Bool :=
  if action = "CREATE" then u.can_create
  else if action = "UPDATE" then u.can_update
  else u.can_view

/-- Modelled from the spec: section 3 Form type enum (`lib/enums.js` FORM.TYPES). -/
def FORM_TYPES : List String := ["SCREENING", "LOAN_APPLICATION", "GROUP_APPLICATION", "ACAT"]

/-- Modelled from the spec: section 3 Form layout enum (`lib/enums.js` FORM.LAYOUTS). -/
def FORM_LAYOUTS : List String := ["TWO_COLUMNS", "THREE_COLUMNS"]

/-- Modelled from the spec: section 3 Question type enum (`lib/enums.js` QUESTION.TYPES). -/
def QUESTION_TYPES : List String :=
  ["YES_NO", "FILL_IN_BLANK", "MULTIPLE_CHOICE", "SINGLE_CHOICE", "GROUPED"]

/-- Modelled from the spec: section 3 validation factor enum
(`lib/enums.js` QUESTION.VALIDATION). -/
def QUESTION_VALIDATION : List String := ["NONE", "ALPHANUMERIC", "NUMERIC", "ALPHABETIC"]

/-- Modelled from the spec: section 3 type-dependent signature defaults
(`lib/enums.js` FORM.SIGNATURES.LOAN; concrete strings unknown, only the
list identity matters to the claims). -/
def SIGNATURES_LOAN : List String := ["LOAN_SIGNATURE_A", "LOAN_SIGNATURE_B"]

/-- Modelled from the spec: section 3 type-dependent signature defaults
(`lib/enums.js` FORM.SIGNATURES.SCREENING). -/
def SIGNATURES_SCREENING : List String := ["SCREENING_SIGNATURE_A"]

/-- Replace the first list element satisfying `p` by its image under `g`
(Mongo `findOneAndUpdate` on a unique-id filter). -/
def updateFirst {α : Type} (p : α → Bool) (g : α → α) : List α → List α
  | [] => []
  | x :: xs => if p x then g x :: xs else x :: updateFirst p g xs

/-- Remove the first list element satisfying `p`, returning it
(Mongo `findOneAndRemove`). -/
def extractFirst {α : Type} (p : α → Bool) : List α → Option α × List α
  | [] => (none, [])
  | x :: xs =>
    if p x then (some x, xs)
    else
      let r := extractFirst p xs
      (r.1, x :: r.2)

/-- `Form.findOne({_id: q})`. A `none` filter value mirrors Mongoose
stripping `undefined` query keys (the query then matches the first document). -/
def formFind (s : Store) (q : Option Nat) : Option FormR :=
  match q with
  | none => s.forms.head?
  | some i => s.forms.find? (fun f => f.id == i)

/-- `FormDal.get({type: t})`. -/
def formFindByType (s : Store) (t : Option String) : Option FormR :=
  match t with
  | none => s.forms.head?
  | some ty => s.forms.find? (fun f => f.ftype == ty)

/-- `Question.findOne({_id: q})` / `QuestionDal.get({_id: q})`. -/
def questionFind (s : Store) (q : Option Nat) : Option QuestionR :=
  match q with
  | none => s.questions.head?
  | some i => s.questions.find? (fun x => x.id == i)

/-- `QuestionDal.get({question_text: t})`. -/
def questionFindByText (s : Store) (t : Option String) : Option QuestionR :=
  match t with
  | none => s.questions.head?
  | some tx => s.questions.find? (fun x => x.question_text == some tx)

/-- `Section.findOne({_id: q})` / `SectionDal.get({_id: q})`. -/
def sectionFind (s : Store) (q : Option Nat) : Option SectionR :=
  match q with
  | none => s.sections.head?
  | some i => s.sections.find? (fun x => x.id == i)

/-- `SectionDal.get({title: t})`. -/
def sectionFindByTitle (s : Store) (t : Option String) : Option SectionR :=
  match t with
  | none => s.sections.head?
  | some ti => s.sections.find? (fun x => x.title == ti)

/-- Partial update document for a Form (`FormDal.update(filter, patch)`);
`none` fields are absent from the patch and leave the stored value alone. -/
structure FormPatch where
  ftype : Option String := none
  title : Option String := none
  layout : Option String := none
  has_sections : Option Bool := none
  signatures : Option (List String) := none
  questions : Option (List Nat) := none
  sections : Option (List Nat) := none
deriving DecidableEq

def applyFormPatch (p : FormPatch) (f : FormR) : FormR :=
  { f with
    ftype := p.ftype.getD f.ftype
    title := p.title.getD f.title
    layout := match p.layout with | none => f.layout | some l => some l
    has_sections := p.has_sections.getD f.has_sections
    signatures := p.signatures.getD f.signatures
    questions := p.questions.getD f.questions
    sections := p.sections.getD f.sections }

def formUpdate (s : Store) (fid : Nat) (p : FormPatch) : Store :=
  { s with forms := updateFirst (fun f => f.id == fid) (applyFormPatch p) s.forms }

/-- Partial update document for a Question. -/
structure QuestionPatch where
  question_text : Option String := none
  qtype : Option String := none
  number : Option String := none
  «show» : Option Bool := none
  prerequisites : Option (List String) := none
  options : Option (List String) := none
  sub_questions : Option (List Nat) := none
deriving DecidableEq

def applyQuestionPatch (p : QuestionPatch) (q : QuestionR) : QuestionR :=
  { q with
    question_text := match p.question_text with | none => q.question_text | some v => some v
    qtype := match p.qtype with | none => q.qtype | some v => some v
    number := match p.number with | none => q.number | some v => some v
    «show» := match p.«show» with | none => q.«show» | some v => some v
    prerequisites := match p.prerequisites with | none => q.prerequisites | some v => some v
    options := match p.options with | none => q.options | some v => some v
    sub_questions := p.sub_questions.getD q.sub_questions }

def questionUpdate (s : Store) (qid : Nat) (p : QuestionPatch) : Store :=
  { s with questions := updateFirst (fun q => q.id == qid) (applyQuestionPatch p) s.questions }

/-- Partial update document for a Section. -/
structure SectionPatch where
  title : Option String := none
  questions : Option (List Nat) := none
deriving DecidableEq

def applySectionPatch (p : SectionPatch) (c : SectionR) : SectionR :=
  { c with
    title := p.title.getD c.title
    questions := p.questions.getD c.questions }

def sectionUpdate (s : Store) (cid : Nat) (p : SectionPatch) : Store :=
  { s with sections := updateFirst (fun c => c.id == cid) (applySectionPatch p) s.sections }

def formDelete (s : Store) (fid : Nat) : Option FormR × Store :=
  let r := extractFirst (fun f => f.id == fid) s.forms
  (r.1, { s with forms := r.2 })

def questionDelete (s : Store) (qid : Nat) : Option QuestionR × Store :=
  let r := extractFirst (fun q => q.id == qid) s.questions
  (r.1, { s with questions := r.2 })

def sectionDelete (s : Store) (cid : Nat) : Option SectionR × Store :=
  let r := extractFirst (fun c => c.id == cid) s.sections
  (r.1, { s with sections := r.2 })

/-- A record-deletion event, recorded each time a store delete actually
removes a document during `removeForm`'s cascade (used to state the
deletion-order claims). -/
inductive Event where
  | delForm (id : Nat)
  | delSection (id : Nat)
  | delQuestion (id : Nat)
deriving DecidableEq

/-- koa-validate `notEmpty` on a string field: absent or empty string. -/
def optStrEmpty : Option String → Bool
  | none => true
  | some t => t == ""

/-- koa-validate `notEmpty` on an array-valued field: absent or empty list
(an empty array stringifies to the empty string).
Modelled from the spec: section 4.2 and the section 8 scenario
"with no options fails ValidationError" (koa-validate is an external
dependency, not under `src/`). -/
def optListEmpty : Option (List String) → Bool
  | none => true
  | some l => l.isEmpty

/-- koa-validate chain `.notEmpty().isIn(allowed)`. -/
def chainNotEmptyIsIn (v : Option String) (allowed : List String) : Bool :=
  match v with
  | none => true
  | some t => t == "" || !allowed.contains t

/-- koa-validate chain `.empty().isIn(allowed)`: the field is optional and
an absent or empty value short-circuits the chain without error. -/
def chainEmptyIsIn (v : Option String) (allowed : List String) : Bool :=
  match v with
  | none => false
  | some t => if t == "" then false else !allowed.contains t

/-- JavaScript `!body.show` for the boolean `show` field: true when the
field is absent or carries `false`. -/
def showFalsy : Option Bool → Bool
  | none => true
  | some v => !v

/-- The raw JSON body of a Form creation request (`createForm`). -/
structure FormReq where
  ftype : Option String := none
  title : Option String := none
  layout : Option String := none
  has_sections : Option Bool := none
  signatures : Option (List String) := none
deriving DecidableEq

/-- `createForm`'s `checkBody` block (form.js lines 55-62). -/
def formCreateHasErrors (req : FormReq) : Bool :=
  chainNotEmptyIsIn req.ftype FORM_TYPES
  || optStrEmpty req.title
  || chainEmptyIsIn req.layout FORM_LAYOUTS

/-- `updateForm`'s `checkBody` block (form.js lines 218-223). -/
def formUpdateHasErrors (req : FormReq) : Bool :=
  chainEmptyIsIn req.ftype FORM_TYPES
  || chainEmptyIsIn req.layout FORM_LAYOUTS

/-- The raw JSON body of a Question creation request. The `section` field
keeps its source name via a quoted identifier. -/
structure QuestionReq where
  form : Option Nat := none
  question_text : Option String := none
  qtype : Option String := none
  number : Option String := none
  required : Option Bool := none
  «show» : Option Bool := none
  prerequisites : Option (List String) := none
  options : Option (List String) := none
  parent_question : Option Nat := none
  «section» : Option Nat := none
  validation_factor : Option String := none
  measurement_unit : Option String := none
  sub_questions : Option (List Nat) := none
deriving DecidableEq

/-- Generic `createQuestion`'s `checkBody` block (part_000 lines 55-61). -/
def questionCreateHasErrors (req : QuestionReq) : Bool :=
  chainNotEmptyIsIn req.qtype QUESTION_TYPES
  || req.form.isNone
  || optStrEmpty req.number

/-- `createGroupedQuestion` / `createFIBQuestion` `checkBody` block
(part_000 lines 169-185 and 288-304). -/
def groupedOrFibHasErrors (req : QuestionReq) : Bool :=
  optStrEmpty req.question_text
  || chainEmptyIsIn req.validation_factor QUESTION_VALIDATION
  || req.required.isNone
  || req.«show».isNone
  || req.form.isNone
  || optStrEmpty req.number

/-- `createMultipleChoiceQuestion` / `createSingleChoiceQuestion`
`checkBody` block (part_000 lines 419-432 and 541-554): `options` must be
present and non-empty. -/
def choiceHasErrors (req : QuestionReq) : Bool :=
  optStrEmpty req.question_text
  || optListEmpty req.options
  || req.«show».isNone
  || req.form.isNone
  || optStrEmpty req.number

/-- `createYNQuestion` `checkBody` block (part_000 lines 663-674). -/
def ynHasErrors (req : QuestionReq) : Bool :=
  optStrEmpty req.question_text
  || req.«show».isNone
  || req.form.isNone
  || optStrEmpty req.number

/-- `QuestionDal.create(body)`: the stored document carries the payload's
fields; `qt` is the (possibly overwritten) `body.type`. -/
def mkQuestion (newId : Nat) (req : QuestionReq) (qt : Option String) : QuestionR :=
  { id := newId
    question_text := req.question_text
    qtype := qt
    number := req.number
    «show» := req.«show»
    prerequisites := req.prerequisites
    options := req.options
    sub_questions := req.sub_questions.getD [] }

def storeAddQuestion (s : Store) (q : QuestionR) : Store :=
  { s with questions := s.questions ++ [q], nextId := s.nextId + 1 }

/-- Parent-question resolution (part_000 lines 87-91): looked up only when
the payload carries `parent_question`. -/
def resolveParent (s : Store) (po : Option Nat) : Res (Option QuestionR) :=
  match po with
  | none => .ok none
  | some pid =>
    match questionFind s (some pid) with
    | none => .err "Parent Question Does Not Exist"
    | some p => .ok (some p)

/-- Section resolution (part_000 lines 93-97). -/
def resolveSection (s : Store) (co : Option Nat) : Res (Option SectionR) :=
  match co with
  | none => .ok none
  | some cid =>
    match sectionFind s (some cid) with
    | none => .err "Section Does Not Exist"
    | some c => .ok (some c)

/-- The attach block shared by the question creators (part_000 lines
102-134): parent-question reference wins, then section, then the form's
own `questions` list; the snapshots taken before `QuestionDal.create` are
used for the read-modify-write. -/
def attachQuestion (s : Store) (newId : Nat) (form : FormR)
    (parentOpt : Option QuestionR) (sectOpt : Option SectionR) : Store :=
  match parentOpt with
  | some parent =>
    questionUpdate s parent.id { sub_questions := some (parent.sub_questions ++ [newId]) }
  | none =>
    match sectOpt with
    | some c => sectionUpdate s c.id { questions := some (c.questions ++ [newId]) }
    | none => formUpdate s form.id { questions := some (form.questions ++ [newId]) }

def permErr : String := "You Don't have enough permissions to complete this action"

/-- `createQuestion` (part_000 lines 42-146). -/
def createQuestion (s : Store) (u : Actor) (req : QuestionReq) : Res QuestionR × Store :=
  if !isPermitted u "CREATE" then (.err permErr, s)
  else if questionCreateHasErrors req then (.err "QUESTION_CREATION_ERROR: invalid fields", s)
  else
    match formFind s req.form with
    | none => (.err "Question Form Does Not Exist", s)
    | some form =>
      if req.parent_question.isNone && (questionFindByText s req.question_text).isSome then
        (.err "Question with that title already exists!!", s)
      else if showFalsy req.«show» && req.prerequisites.isNone then
        (.err "Question Requires Prerequisites", s)
      else
        match resolveParent s req.parent_question with
        | .err m => (.err m, s)
        | .ok parentOpt =>
          match resolveSection s req.«section» with
          | .err m => (.err m, s)
          | .ok sectOpt =>
            let newq := mkQuestion s.nextId req req.qtype
            (.ok newq, attachQuestion (storeAddQuestion s newq) newq.id form parentOpt sectOpt)

/-- `createGroupedQuestion` (part_000 lines 156-265).  No parent lookup is
performed; a payload carrying `parent_question` reaches the attach block
and trips on the undeclared `parent` variable (a `ReferenceError`) after
the Question has already been created. -/
def createGrouped (s : Store) (u : Actor) (req : QuestionReq) : Res QuestionR × Store :=
  if !isPermitted u "CREATE" then (.err permErr, s)
  else if groupedOrFibHasErrors req then (.err "CREATE_GROUPED_QUESTION_ERROR: invalid fields", s)
  else
    match formFind s req.form with
    | none => (.err "Question Form Does Not Exist", s)
    | some form =>
      match resolveSection s req.«section» with
      | .err m => (.err m, s)
      | .ok sectOpt =>
        if showFalsy req.«show» && req.prerequisites.isNone then
          (.err "Question Requires Prerequisites", s)
        else
          let newq := mkQuestion s.nextId req (some "GROUPED")
          let s1 := storeAddQuestion s newq
          if req.parent_question.isSome then
            (.err "ReferenceError: parent is not defined", s1)
          else
            (.ok newq, attachQuestion s1 newq.id form none sectOpt)

/-- `createFIBQuestion` (part_000 lines 275-396): a payload carrying an
`options` field (truthy array) is rejected before creation. -/
def createFIB (s : Store) (u : Actor) (req : QuestionReq) : Res QuestionR × Store :=
  if !isPermitted u "CREATE" then (.err permErr, s)
  else if groupedOrFibHasErrors req then (.err "CREATE_FIB_QUESTION_ERROR: invalid fields", s)
  else
    match formFind s req.form with
    | none => (.err "Question Form Does Not Exist", s)
    | some form =>
      match resolveParent s req.parent_question with
      | .err m => (.err m, s)
      | .ok parentOpt =>
        match resolveSection s req.«section» with
        | .err m => (.err m, s)
        | .ok sectOpt =>
          if req.options.isSome then
            (.err "Fill in Blank Questions Do not need options", s)
          else if showFalsy req.«show» && req.prerequisites.isNone then
            (.err "Question Requires Prerequisites", s)
          else
            let newq := mkQuestion s.nextId req (some "FILL_IN_BLANK")
            (.ok newq, attachQuestion (storeAddQuestion s newq) newq.id form parentOpt sectOpt)

/-- `createMultipleChoiceQuestion` (part_000 lines 406-518). -/
def createMC (s : Store) (u : Actor) (req : QuestionReq) : Res QuestionR × Store :=
  if !isPermitted u "CREATE" then (.err permErr, s)
  else if choiceHasErrors req then (.err "Question Options is empty", s)
  else
    match formFind s req.form with
    | none => (.err "Question Form Does Not Exist", s)
    | some form =>
      match resolveParent s req.parent_question with
      | .err m => (.err m, s)
      | .ok parentOpt =>
        match resolveSection s req.«section» with
        | .err m => (.err m, s)
        | .ok sectOpt =>
          if showFalsy req.«show» && req.prerequisites.isNone then
            (.err "Question Requires Prerequisites", s)
          else
            let newq := mkQuestion s.nextId req (some "MULTIPLE_CHOICE")
            (.ok newq, attachQuestion (storeAddQuestion s newq) newq.id form parentOpt sectOpt)

/-- `createSingleChoiceQuestion` (part_000 lines 528-640). -/
def createSC (s : Store) (u : Actor) (req : QuestionReq) : Res QuestionR × Store :=
  if !isPermitted u "CREATE" then (.err permErr, s)
  else if choiceHasErrors req then (.err "Question Options is empty", s)
  else
    match formFind s req.form with
    | none => (.err "Question Form Does Not Exist", s)
    | some form =>
      match resolveParent s req.parent_question with
      | .err m => (.err m, s)
      | .ok parentOpt =>
        match resolveSection s req.«section» with
        | .err m => (.err m, s)
        | .ok sectOpt =>
          if showFalsy req.«show» && req.prerequisites.isNone then
            (.err "Question Requires Prerequisites", s)
          else
            let newq := mkQuestion s.nextId req (some "SINGLE_CHOICE")
            (.ok newq, attachQuestion (storeAddQuestion s newq) newq.id form parentOpt sectOpt)

/-- `createYNQuestion` (part_000 lines 650-760). -/
def createYN (s : Store) (u : Actor) (req : QuestionReq) : Res QuestionR × Store :=
  if !isPermitted u "CREATE" then (.err permErr, s)
  else if ynHasErrors req then (.err "CREATE_SC_QUESTION_ERROR: invalid fields", s)
  else
    match formFind s req.form with
    | none => (.err "Question Form Does Not Exist", s)
    | some form =>
      match resolveParent s req.parent_question with
      | .err m => (.err m, s)
      | .ok parentOpt =>
        match resolveSection s req.«section» with
        | .err m => (.err m, s)
        | .ok sectOpt =>
          if showFalsy req.«show» && req.prerequisites.isNone then
            (.err "Question Requires Prerequisites", s)
          else
            let newq := mkQuestion s.nextId req (some "YES_NO")
            (.ok newq, attachQuestion (storeAddQuestion s newq) newq.id form parentOpt sectOpt)

/-- `updateQuestion` (part_000 lines 809-850). -/
def updateQuestion (s : Store) (u : Actor) (qid : Nat) (p : QuestionPatch) :
    Res QuestionR × Store :=
  if !isPermitted u "UPDATE" then (.err permErr, s)
  else
    match questionFind s (some qid) with
    | none => (.err "Question Does not Exist!!", s)
    | some q => (.ok (applyQuestionPatch p q), questionUpdate s qid p)

/-- Detaching a removed question id from each of a form's sections
(part_000 lines 953-965): missing sections are skipped. -/
def removeFromSections (qid : Nat) (s : Store) : List Nat → Store
  | [] => s
  | cid :: rest =>
    match sectionFind s (some cid) with
    | none => removeFromSections qid s rest
    | some c =>
      removeFromSections qid
        (sectionUpdate s cid { questions := some (c.questions.filter (fun x => x != qid)) }) rest

/-- `removeQuestion` (part_000 lines 905-986).  No permission check exists
on this path.  The caller supplies `parent_question` or `form` as query
context. -/
def removeQuestion (s : Store) (qid : Nat) (parentCtx : Option Nat) (formCtx : Option Nat) :
    Res QuestionR × Store :=
  match questionFind s (some qid) with
  | none => (.err "Question Does not Exist!!", s)
  | some _ =>
    let del := questionDelete s qid
    match del.1 with
    | none => (.err "Question Does not Exist!!", del.2)
    | some q0 =>
      match parentCtx with
      | some pid =>
        match questionFind del.2 (some pid) with
        | none => (.err "TypeError: Cannot read property of null", del.2)
        | some parent =>
          (.ok q0, questionUpdate del.2 pid
            { sub_questions := some (parent.sub_questions.filter (fun x => x != qid)) })
      | none =>
        match formCtx with
        | none => (.err "Form reference missing in query", del.2)
        | some fid =>
          match formFind del.2 (some fid) with
          | none => (.err " Form Does Not Exist", del.2)
          | some form =>
            let s2 := formUpdate del.2 form.id
              { questions := some (form.questions.filter (fun x => x != qid)) }
            (.ok q0, removeFromSections qid s2 form.sections)

/-- The raw JSON body of a Section creation request. -/
structure SectionReq where
  title : Option String := none
  form : Option Nat := none
deriving DecidableEq

def sectionCreateHasErrors (req : SectionReq) : Bool :=
  optStrEmpty req.title || req.form.isNone

/-- `createSection` (section.js lines 36-98). -/
def createSection (s : Store) (u : Actor) (req : SectionReq) : Res SectionR × Store :=
  if !isPermitted u "CREATE" then (.err permErr, s)
  else if sectionCreateHasErrors req then (.err "CREATE_SECTION_ERROR: invalid fields", s)
  else
    match formFind s req.form with
    | none => (.err "Form Does Not Exist", s)
    | some form =>
      if !form.has_sections then (.err "Form Does Not Need Sections", s)
      else if (sectionFindByTitle s req.title).isSome then
        (.err "Section with that title already exists!!", s)
      else
        let newc : SectionR := { id := s.nextId, title := req.title.getD "", questions := [] }
        let s1 : Store := { s with sections := s.sections ++ [newc], nextId := s.nextId + 1 }
        (.ok newc, formUpdate s1 form.id { sections := some (form.sections ++ [newc.id]) })

/-- `updateSection` (section.js lines 144-180). -/
def updateSection (s : Store) (u : Actor) (cid : Nat) (p : SectionPatch) :
    Res SectionR × Store :=
  if !isPermitted u "UPDATE" then (.err permErr, s)
  else
    match sectionFind s (some cid) with
    | none => (.err "TypeError: Cannot read property of null", s)
    | some c => (.ok (applySectionPatch p c), sectionUpdate s cid p)

/-- The inner Sub-Question loop of the section cascade (form.js lines
342-344 and section.js lines 256-258): for each entry of
`question.sub_questions` the code deletes `question._id` again instead of
the sub-question's own id, so the first iteration re-targets the already
deleted parent and every iteration is a no-op. -/
def deleteSubListBuggy (qid : Nat) (s : Store) (evs : List Event) :
    List Nat → Store × List Event
  | [] => (s, evs)
  | _ :: rest =>
    let del := questionDelete s qid
    match del.1 with
    | none => deleteSubListBuggy qid del.2 evs rest
    | some _ => deleteSubListBuggy qid del.2 (evs ++ [Event.delQuestion qid]) rest

/-- The Sub-Question loop of the direct-question cascade (form.js lines
328-332): each sub-question id is deleted. -/
def deleteSubList (s : Store) (evs : List Event) : List Nat → Store × List Event
  | [] => (s, evs)
  | sid :: rest =>
    let del := questionDelete s sid
    match del.1 with
    | none => deleteSubList del.2 evs rest
    | some _ => deleteSubList del.2 (evs ++ [Event.delQuestion sid]) rest

/-- The direct-question cascade of `removeForm` (form.js lines 326-333).
A dangling question reference makes the subsequent `sub_questions` access
throw, surfacing a partial cascade. -/
def cascadeFormQuestions (s : Store) (evs : List Event) :
    List Nat → Store × List Event × Option String
  | [] => (s, evs, none)
  | qid :: rest =>
    let del := questionDelete s qid
    match del.1 with
    | none => (del.2, evs, some "TypeError: Cannot read property of null")
    | some q =>
      let r := deleteSubList del.2 (evs ++ [Event.delQuestion qid]) q.sub_questions
      cascadeFormQuestions r.1 r.2 rest

/-- One section's question cascade (form.js lines 338-346, also reached
from `removeSection`), including the buggy Sub-Question loop. -/
def cascadeSectionQuestions (s : Store) (evs : List Event) :
    List Nat → Store × List Event × Option String
  | [] => (s, evs, none)
  | qid :: rest =>
    let del := questionDelete s qid
    match del.1 with
    | none => (del.2, evs, some "TypeError: Cannot read property of null")
    | some q =>
      let r := deleteSubListBuggy qid del.2 (evs ++ [Event.delQuestion qid]) q.sub_questions
      cascadeSectionQuestions r.1 r.2 rest

/-- The section cascade of `removeForm` (form.js lines 335-347): each
referenced Section is deleted, then its questions are cascaded. -/
def cascadeFormSections (s : Store) (evs : List Event) :
    List Nat → Store × List Event × Option String
  | [] => (s, evs, none)
  | cid :: rest =>
    let del := sectionDelete s cid
    match del.1 with
    | none => (del.2, evs, some "TypeError: Cannot read property of null")
    | some c =>
      match cascadeSectionQuestions del.2 (evs ++ [Event.delSection cid]) c.questions with
      | (s2, evs2, some m) => (s2, evs2, some m)
      | (s2, evs2, none) => cascadeFormSections s2 evs2 rest

/-- `removeForm` (form.js lines 313-365).  The Form record is deleted
first (`FormDal.delete` returns the removed document, whose reference
lists then drive the cascade); the result also carries the ordered list of
actual record deletions. -/
def removeForm (s : Store) (fid : Nat) : Res FormR × Store × List Event :=
  let del := formDelete s fid
  match del.1 with
  | none => (.err "TypeError: Cannot read property of null", del.2, [])
  | some form =>
    match cascadeFormQuestions del.2 [Event.delForm fid] form.questions with
    | (s1, evs1, some m) => (.err m, s1, evs1)
    | (s1, evs1, none) =>
      match cascadeFormSections s1 evs1 form.sections with
      | (s2, evs2, some m) => (.err m, s2, evs2)
      | (s2, evs2, none) => (.ok form, s2, evs2)

/-- `removeSection` (section.js lines 237-288): the Section record is
deleted first, then its questions are cascaded (with the same buggy
Sub-Question loop), then the Section id is pulled from the Form's
`sections`. -/
def removeSection (s : Store) (cid : Nat) (formCtx : Option Nat) : Res SectionR × Store :=
  let del := sectionDelete s cid
  match del.1 with
  | none => (.err "Section Does Not Exist", del.2)
  | some c =>
    match formFind del.2 formCtx with
    | none => (.err "Form Does Not Exist", del.2)
    | some form =>
      match cascadeSectionQuestions del.2 [] c.questions with
      | (s2, _, some m) => (.err m, s2)
      | (s2, _, none) =>
        (.ok c, formUpdate s2 form.id
          { sections := some (form.sections.filter (fun x => x != cid)) })

/-- `FormDal.create(body)` after `createForm`'s body fix-ups (form.js
lines 77-88): `created_by` is the acting user and `signatures` is
overwritten with the type-dependent default for LOAN_APPLICATION and
SCREENING forms. -/
def mkForm (newId : Nat) (u : Actor) (req : FormReq) : FormR :=
  { id := newId
    ftype := req.ftype.getD ""
    title := req.title.getD ""
    layout := req.layout
    has_sections := req.has_sections.getD false
    signatures :=
      if req.ftype == some "LOAN_APPLICATION" then SIGNATURES_LOAN
      else if req.ftype == some "SCREENING" then SIGNATURES_SCREENING
      else req.signatures.getD []
    questions := []
    sections := []
    created_by := u.id }

/-- `createForm` (form.js lines 42-99): a Form whose `type` is already
taken is rejected before anything is written. -/
def createForm (s : Store) (u : Actor) (req : FormReq) : Res FormR × Store :=
  if !isPermitted u "CREATE" then (.err permErr, s)
  else if formCreateHasErrors req then (.err "CREATE_FORM_ERROR: invalid fields", s)
  else
    match formFindByType s req.ftype with
    | some _ => (.err "Form For that type already exists!!", s)
    | none =>
      let newf := mkForm s.nextId u req
      (.ok newf, { s with forms := s.forms ++ [newf], nextId := s.nextId + 1 })

/-- The update payload as a store patch after `delete body.signatures`
(form.js line 234). -/
def formReqPatch (req : FormReq) : FormPatch :=
  { ftype := req.ftype
    title := req.title
    layout := req.layout
    has_sections := req.has_sections
    signatures := none }

/-- `updateForm` (form.js lines 201-258): the `signatures` entry of the
payload is discarded, and the payload's `type` must loosely equal the
stored type (an absent `type` therefore also fails). -/
def updateForm (s : Store) (u : Actor) (fid : Nat) (req : FormReq) : Res FormR × Store :=
  if !isPermitted u "UPDATE" then (.err permErr, s)
  else if formUpdateHasErrors req then (.err "UPDATE_FORM_ERROR: invalid fields", s)
  else
    match formFind s (some fid) with
    | none => (.err "TypeError: Cannot read property of null", s)
    | some form =>
      if req.ftype = some form.ftype then
        (.ok (applyFormPatch (formReqPatch req) form), formUpdate s fid (formReqPatch req))
      else (.err "Form Type is Not Consisted!", s)

/-- One exposed mutating operation of the service (spec section 4.1/6):
the HTTP layer maps each route to exactly one of these controller calls. -/
inductive Op where
  | opCreateForm (u : Actor) (req : FormReq)
  | opUpdateForm (u : Actor) (fid : Nat) (req : FormReq)
  | opRemoveForm (fid : Nat)
  | opCreateQuestion (u : Actor) (req : QuestionReq)
  | opCreateGrouped (u : Actor) (req : QuestionReq)
  | opCreateFIB (u : Actor) (req : QuestionReq)
  | opCreateMC (u : Actor) (req : QuestionReq)
  | opCreateSC (u : Actor) (req : QuestionReq)
  | opCreateYN (u : Actor) (req : QuestionReq)
  | opUpdateQuestion (u : Actor) (qid : Nat) (p : QuestionPatch)
  | opRemoveQuestion (qid : Nat) (parentCtx : Option Nat) (formCtx : Option Nat)
  | opCreateSection (u : Actor) (req : SectionReq)
  | opUpdateSection (u : Actor) (cid : Nat) (p : SectionPatch)
  | opRemoveSection (cid : Nat) (formCtx : Option Nat)
deriving DecidableEq

/-- The store reached by one exposed operation (read-only routes touch no
store state and are omitted). -/
def applyOp (s : Store) : Op → Store
  | .opCreateForm u req => (createForm s u req).2
  | .opUpdateForm u fid req => (updateForm s u fid req).2
  | .opRemoveForm fid => (removeForm s fid).2.1
  | .opCreateQuestion u req => (createQuestion s u req).2
  | .opCreateGrouped u req => (createGrouped s u req).2
  | .opCreateFIB u req => (createFIB s u req).2
  | .opCreateMC u req => (createMC s u req).2
  | .opCreateSC u req => (createSC s u req).2
  | .opCreateYN u req => (createYN s u req).2
  | .opUpdateQuestion u qid p => (updateQuestion s u qid p).2
  | .opRemoveQuestion qid pc fc => (removeQuestion s qid pc fc).2
  | .opCreateSection u req => (createSection s u req).2
  | .opUpdateSection u cid p => (updateSection s u cid p).2
  | .opRemoveSection cid fc => (removeSection s cid fc).2

/-- The store reached from the empty store by a sequence of exposed
operations. -/
def execOps (ops : List Op) : Store :=
  ops.foldl applyOp emptyStore

/-- At most one Form per `type` value (spec section 3 invariant). -/
def UniqueTypes (s : Store) : Prop :=
  (s.forms.map FormR.ftype).Nodup

/-- True for Question/Section deletion events, false for a Form deletion. -/
def isChildDelete : Event → Bool
  | .delForm _ => false
  | .delSection _ => true
  | .delQuestion _ => true

/-- The claim's deletion-order property: once the Form record's deletion
event occurs, no further child (Question/Section) deletion event follows,
i.e. every owned child was deleted before the Form record. -/
def childrenBeforeParent : List Event → Bool
  | [] => true
  | e :: rest =>
    match e with
    | .delForm _ => !(rest.any isChildDelete)
    | _ => childrenBeforeParent rest

/-- An actor holding every permission (concrete test fixture). -/
def wActor : Actor := { id := 9, can_create := true, can_update := true, can_view := true }

/-- Fixture: a Form whose single Section holds a Question that has one
Sub-Question. -/
def c1Store : Store :=
  { forms := [{ id := 1, ftype := "LOAN_APPLICATION", title := "L", layout := none,
                has_sections := true, signatures := [], questions := [], sections := [2],
                created_by := 9 }]
    sections := [{ id := 2, title := "S", questions := [3] }]
    questions := [{ id := 3, question_text := some "Q3", qtype := some "GROUPED",
                    number := some "1", «show» := some true, prerequisites := none,
                    options := none, sub_questions := [4] },
                  { id := 4, question_text := some "Q4", qtype := some "FILL_IN_BLANK",
                    number := some "1.1", «show» := some true, prerequisites := none,
                    options := none, sub_questions := [] }]
    nextId := 5 }

/-- Fixture: a Form with one direct Question. -/
def c2Store : Store :=
  { forms := [{ id := 1, ftype := "LOAN_APPLICATION", title := "L", layout := none,
                has_sections := false, signatures := [], questions := [2], sections := [],
                created_by := 9 }]
    sections := []
    questions := [{ id := 2, question_text := some "Q2", qtype := some "YES_NO",
                    number := some "1", «show» := some true, prerequisites := none,
                    options := none, sub_questions := [] }]
    nextId := 3 }

/-- Fixture: a store holding one sectionless Form and no Questions. -/
def c3Store : Store :=
  { forms := [{ id := 1, ftype := "LOAN_APPLICATION", title := "L", layout := none,
                has_sections := false, signatures := [], questions := [], sections := [],
                created_by := 9 }]
    sections := [], questions := [], nextId := 2 }

/-- Fixture: a creation payload with `show: false` and an (empty but
present) `prerequisites` array. -/
def c3Req : QuestionReq :=
  { form := some 1, question_text := some "Age?", qtype := some "YES_NO",
    number := some "1", «show» := some false, prerequisites := some [] }

/-- Fixture: a store holding one sectionless Form and no Questions. -/
def c4Store : Store :=
  { forms := [{ id := 1, ftype := "LOAN_APPLICATION", title := "L", layout := none,
                has_sections := false, signatures := [], questions := [], sections := [],
                created_by := 9 }]
    sections := [], questions := [], nextId := 2 }

/-- Fixture: a top-level question payload with no container references. -/
def c4Req : QuestionReq :=
  { form := some 1, question_text := some "Age?", qtype := some "FILL_IN_BLANK",
    number := some "1", «show» := some true }

/-- Fixture: a valid SCREENING Form creation payload. -/
def c5Req : FormReq :=
  { ftype := some "SCREENING", title := some "Screening Form", layout := some "TWO_COLUMNS" }

/-- Fixture: the operation sequence that creates one SCREENING Form. -/
def c5Ops : List Op := [Op.opCreateForm wActor c5Req]

/-- Fixture: a Form together with an existing GROUPED Question and a
Section. -/
def c6Store : Store :=
  { forms := [{ id := 1, ftype := "LOAN_APPLICATION", title := "L", layout := none,
                has_sections := true, signatures := [], questions := [2], sections := [3],
                created_by := 9 }]
    sections := [{ id := 3, title := "S", questions := [] }]
    questions := [{ id := 2, question_text := some "Land size", qtype := some "GROUPED",
                    number := some "2", «show» := some true, prerequisites := none,
                    options := none, sub_questions := [] }]
    nextId := 4 }

/-- Fixture: a payload referencing both a Section and a parent Question. -/
def c6Req : QuestionReq :=
  { form := some 1, question_text := some "Plot 1 size", qtype := some "FILL_IN_BLANK",
    number := some "2.1", «show» := some true, parent_question := some 2,
    «section» := some 3 }

/-- Fixture: a FILL_IN_BLANK payload that carries a non-empty options list. -/
def c7Req : QuestionReq :=
  { form := some 1, question_text := some "Age?", number := some "1",
    required := some true, «show» := some true, options := some ["a", "b"] }

/-- Fixture: a MULTIPLE_CHOICE/SINGLE_CHOICE payload lacking options. -/
def c8Req : QuestionReq :=
  { form := some 1, question_text := some "Crops?", number := some "1",
    «show» := some true, options := none }

/-- Fixture: a question payload with `show: false` and no `prerequisites`
key at all. -/
def c3aReq : QuestionReq :=
  { form := some 1, question_text := some "Age?", qtype := some "YES_NO",
    number := some "1", «show» := some false, prerequisites := none }

/-- Fixture: a question payload referencing a Form id absent from the store. -/
def c10Req : QuestionReq :=
  { form := some 5, question_text := some "Age?", qtype := some "YES_NO",
    number := some "1", «show» := some true }

@[simp] theorem forms_storeAddQuestion (s : Store) (q : QuestionR) :
    (storeAddQuestion s q).forms = s.forms := rfl

@[simp] theorem sections_storeAddQuestion (s : Store) (q : QuestionR) :
    (storeAddQuestion s q).sections = s.sections := rfl

@[simp] theorem forms_questionUpdate (s : Store) (qid : Nat) (p : QuestionPatch) :
    (questionUpdate s qid p).forms = s.forms := rfl

@[simp] theorem sections_questionUpdate (s : Store) (qid : Nat) (p : QuestionPatch) :
    (questionUpdate s qid p).sections = s.sections := rfl

@[simp] theorem forms_sectionUpdate (s : Store) (cid : Nat) (p : SectionPatch) :
    (sectionUpdate s cid p).forms = s.forms := rfl

@[simp] theorem forms_questionDelete (s : Store) (qid : Nat) :
    (questionDelete s qid).2.forms = s.forms := rfl

@[simp] theorem sections_questionDelete (s : Store) (qid : Nat) :
    (questionDelete s qid).2.sections = s.sections := rfl

@[simp] theorem forms_sectionDelete (s : Store) (cid : Nat) :
    (sectionDelete s cid).2.forms = s.forms := rfl

@[simp] theorem sections_formUpdate (s : Store) (fid : Nat) (p : FormPatch) :
    (formUpdate s fid p).sections = s.sections := rfl

@[simp] theorem questions_formUpdate (s : Store) (fid : Nat) (p : FormPatch) :
    (formUpdate s fid p).questions = s.questions := rfl

theorem extractFirst_sublist {α : Type} (pr : α → Bool) :
    ∀ l : List α, ((extractFirst pr l).2).Sublist l := by
  intro l
  induction l with
  | nil => simp [extractFirst]
  | cons x xs ih =>
    unfold extractFirst
    by_cases hx : pr x
    · simp [hx]
    · simpa [hx] using ih.cons₂ x

theorem map_updateFirst {α β : Type} (pr : α → Bool) (g : α → α) (h : α → β)
    (hg : ∀ x, h (g x) = h x) :
    ∀ l : List α, (updateFirst pr g l).map h = l.map h := by
  intro l
  induction l with
  | nil => rfl
  | cons x xs ih =>
    unfold updateFirst
    by_cases hx : pr x <;> simp [hx, hg, ih]

theorem map_updateFirst_found {α β : Type} (pr : α → Bool) (g : α → α) (h : α → β) :
    ∀ (l : List α) (x₀ : α), l.find? pr = some x₀ → h (g x₀) = h x₀ →
      (updateFirst pr g l).map h = l.map h := by
  intro l
  induction l with
  | nil => intro x₀ hf; simp [List.find?] at hf
  | cons x xs ih =>
    intro x₀ hf hh
    unfold updateFirst
    by_cases hx : pr x
    · rw [List.find?_cons_of_pos _ hx] at hf
      cases hf
      simp [hx, hh]
    · rw [List.find?_cons_of_neg _ hx] at hf
      simp [hx, ih x₀ hf hh]

theorem find?_updateFirst {α : Type} (pr : α → Bool) (g : α → α)
    (hg : ∀ x, pr (g x) = pr x) :
    ∀ l : List α, (updateFirst pr g l).find? pr = (l.find? pr).map g := by
  intro l
  induction l with
  | nil => rfl
  | cons x xs ih =>
    unfold updateFirst
    by_cases hx : pr x
    · rw [if_pos hx, List.find?_cons_of_pos _ (by rw [hg]; exact hx),
        List.find?_cons_of_pos _ hx]
      rfl
    · rw [if_neg hx, List.find?_cons_of_neg _ hx, List.find?_cons_of_neg _ hx]
      exact ih

theorem find?_append_some {α : Type} (pr : α → Bool) (l l' : List α) (a : α)
    (h : l.find? pr = some a) : (l ++ l').find? pr = some a := by
  induction l with
  | nil => simp [List.find?] at h
  | cons x xs ih =>
    by_cases hx : pr x
    · rw [List.find?_cons_of_pos _ hx] at h
      cases h
      rw [List.cons_append, List.find?_cons_of_pos _ hx]
    · rw [List.find?_cons_of_neg _ hx] at h
      rw [List.cons_append, List.find?_cons_of_neg _ hx]
      exact ih h

theorem deleteSubList_events (l : List Nat) : ∀ (s : Store) (evs : List Event),
    ∃ ex, (deleteSubList s evs l).2 = evs ++ ex ∧ ex.all isChildDelete = true := by
  induction l with
  | nil => intro s evs; exact ⟨[], by simp [deleteSubList]⟩
  | cons sid rest ih =>
    intro s evs
    unfold deleteSubList
    cases h : (questionDelete s sid).1 with
    | none => simpa [h] using ih (questionDelete s sid).2 evs
    | some q =>
      obtain ⟨ex, hex, hall⟩ := ih (questionDelete s sid).2 (evs ++ [Event.delQuestion sid])
      exact ⟨Event.delQuestion sid :: ex, by simp [h, hex, hall, isChildDelete]⟩

theorem deleteSubListBuggy_events (qid : Nat) (l : List Nat) :
    ∀ (s : Store) (evs : List Event),
    ∃ ex, (deleteSubListBuggy qid s evs l).2 = evs ++ ex ∧ ex.all isChildDelete = true := by
  induction l with
  | nil => intro s evs; exact ⟨[], by simp [deleteSubListBuggy]⟩
  | cons x rest ih =>
    intro s evs
    unfold deleteSubListBuggy
    cases h : (questionDelete s qid).1 with
    | none => simpa [h] using ih (questionDelete s qid).2 evs
    | some q =>
      obtain ⟨ex, hex, hall⟩ := ih (questionDelete s qid).2 (evs ++ [Event.delQuestion qid])
      exact ⟨Event.delQuestion qid :: ex, by simp [h, hex, hall, isChildDelete]⟩

theorem cascadeFormQuestions_events (l : List Nat) : ∀ (s : Store) (evs : List Event),
    ∃ ex, (cascadeFormQuestions s evs l).2.1 = evs ++ ex ∧ ex.all isChildDelete = true := by
  induction l with
  | nil => intro s evs; exact ⟨[], by simp [cascadeFormQuestions]⟩
  | cons qid rest ih =>
    intro s evs
    unfold cascadeFormQuestions
    cases h : (questionDelete s qid).1 with
    | none => exact ⟨[], by simp [h]⟩
    | some q =>
      obtain ⟨ex1, hex1, hall1⟩ :=
        deleteSubList_events q.sub_questions (questionDelete s qid).2
          (evs ++ [Event.delQuestion qid])
      obtain ⟨ex2, hex2, hall2⟩ :=
        ih (deleteSubList (questionDelete s qid).2 (evs ++ [Event.delQuestion qid])
              q.sub_questions).1
           (deleteSubList (questionDelete s qid).2 (evs ++ [Event.delQuestion qid])
              q.sub_questions).2
      refine ⟨Event.delQuestion qid :: (ex1 ++ ex2), ?_, ?_⟩
      · simp only [h]
        rw [hex2, hex1]
        simp
      · simp_all [isChildDelete]

theorem cascadeSectionQuestions_events (l : List Nat) : ∀ (s : Store) (evs : List Event),
    ∃ ex, (cascadeSectionQuestions s evs l).2.1 = evs ++ ex ∧ ex.all isChildDelete = true := by
  induction l with
  | nil => intro s evs; exact ⟨[], by simp [cascadeSectionQuestions]⟩
  | cons qid rest ih =>
    intro s evs
    unfold cascadeSectionQuestions
    cases h : (questionDelete s qid).1 with
    | none => exact ⟨[], by simp [h]⟩
    | some q =>
      obtain ⟨ex1, hex1, hall1⟩ :=
        deleteSubListBuggy_events qid q.sub_questions (questionDelete s qid).2
          (evs ++ [Event.delQuestion qid])
      obtain ⟨ex2, hex2, hall2⟩ :=
        ih (deleteSubListBuggy qid (questionDelete s qid).2
              (evs ++ [Event.delQuestion qid]) q.sub_questions).1
           (deleteSubListBuggy qid (questionDelete s qid).2
              (evs ++ [Event.delQuestion qid]) q.sub_questions).2
      refine ⟨Event.delQuestion qid :: (ex1 ++ ex2), ?_, ?_⟩
      · simp only [h]
        rw [hex2, hex1]
        simp
      · simp_all [isChildDelete]

theorem cascadeFormSections_events (l : List Nat) : ∀ (s : Store) (evs : List Event),
    ∃ ex, (cascadeFormSections s evs l).2.1 = evs ++ ex ∧ ex.all isChildDelete = true := by
  induction l with
  | nil => intro s evs; exact ⟨[], by simp [cascadeFormSections]⟩
  | cons cid rest ih =>
    intro s evs
    unfold cascadeFormSections
    cases h : (sectionDelete s cid).1 with
    | none => exact ⟨[], by simp [h]⟩
    | some c =>
      obtain ⟨ex1, hex1, hall1⟩ :=
        cascadeSectionQuestions_events c.questions (sectionDelete s cid).2
          (evs ++ [Event.delSection cid])
      rcases hc : cascadeSectionQuestions (sectionDelete s cid).2
          (evs ++ [Event.delSection cid]) c.questions with ⟨s2, evs2, err2⟩
      rw [hc] at hex1
      simp only at hex1
      cases err2 with
      | some m =>
        refine ⟨Event.delSection cid :: ex1, ?_, ?_⟩
        · simp only [h, hc]
          rw [hex1]
          simp
        · simp_all [isChildDelete]
      | none =>
        obtain ⟨ex2, hex2, hall2⟩ := ih s2 evs2
        refine ⟨Event.delSection cid :: (ex1 ++ ex2), ?_, ?_⟩
        · simp only [h, hc]
          rw [hex2, hex1]
          simp
        · simp_all [isChildDelete]

theorem forms_deleteSubList (l : List Nat) : ∀ (s : Store) (evs : List Event),
    (deleteSubList s evs l).1.forms = s.forms := by
  induction l with
  | nil => intro s evs; rfl
  | cons sid rest ih =>
    intro s evs
    unfold deleteSubList
    cases h : (questionDelete s sid).1 <;> simp [h, ih]

theorem forms_deleteSubListBuggy (qid : Nat) (l : List Nat) :
    ∀ (s : Store) (evs : List Event),
    (deleteSubListBuggy qid s evs l).1.forms = s.forms := by
  induction l with
  | nil => intro s evs; rfl
  | cons x rest ih =>
    intro s evs
    unfold deleteSubListBuggy
    cases h : (questionDelete s qid).1 <;> simp [h, ih]

theorem forms_cascadeFormQuestions (l : List Nat) : ∀ (s : Store) (evs : List Event),
    (cascadeFormQuestions s evs l).1.forms = s.forms := by
  induction l with
  | nil => intro s evs; rfl
  | cons qid rest ih =>
    intro s evs
    unfold cascadeFormQuestions
    cases h : (questionDelete s qid).1 with
    | none => simp [h]
    | some q => simp [h, ih, forms_deleteSubList]

theorem forms_cascadeSectionQuestions (l : List Nat) : ∀ (s : Store) (evs : List Event),
    (cascadeSectionQuestions s evs l).1.forms = s.forms := by
  induction l with
  | nil => intro s evs; rfl
  | cons qid rest ih =>
    intro s evs
    unfold cascadeSectionQuestions
    cases h : (questionDelete s qid).1 with
    | none => simp [h]
    | some q => simp [h, ih, forms_deleteSubListBuggy]

theorem forms_cascadeFormSections (l : List Nat) : ∀ (s : Store) (evs : List Event),
    (cascadeFormSections s evs l).1.forms = s.forms := by
  induction l with
  | nil => intro s evs; rfl
  | cons cid rest ih =>
    intro s evs
    unfold cascadeFormSections
    cases h : (sectionDelete s cid).1 with
    | none => simp [h]
    | some c =>
      rcases hc : cascadeSectionQuestions (sectionDelete s cid).2
          (evs ++ [Event.delSection cid]) c.questions with ⟨s2, evs2, err2⟩
      have hf : s2.forms = s.forms := by
        have h2 := forms_cascadeSectionQuestions c.questions (sectionDelete s cid).2
          (evs ++ [Event.delSection cid])
        rw [hc] at h2
        simpa using h2
      cases err2 with
      | some m => simp [h, hc, hf]
      | none => simp [h, hc, ih, hf]

@[simp] theorem forms_formDelete (s : Store) (fid : Nat) :
    (formDelete s fid).2.forms = (extractFirst (fun f => f.id == fid) s.forms).2 := rfl

theorem forms_removeForm_sublist (s : Store) (fid : Nat) :
    ((removeForm s fid).2.1.forms).Sublist s.forms := by
  unfold removeForm
  cases h : (formDelete s fid).1 with
  | none =>
    simp only [h]
    exact extractFirst_sublist _ s.forms
  | some form =>
    simp only [h]
    rcases hq : cascadeFormQuestions (formDelete s fid).2 [Event.delForm fid] form.questions
      with ⟨s1, evs1, err1⟩
    have hf1 : s1.forms = (extractFirst (fun f => f.id == fid) s.forms).2 := by
      have h2 := forms_cascadeFormQuestions form.questions (formDelete s fid).2
        [Event.delForm fid]
      rw [hq] at h2
      simpa using h2
    cases err1 with
    | some m =>
      simp only [hq]
      rw [hf1]
      exact extractFirst_sublist _ s.forms
    | none =>
      rcases hs2 : cascadeFormSections s1 evs1 form.sections with ⟨s2, evs2, err2⟩
      have hf2 : s2.forms = s1.forms := by
        have h3 := forms_cascadeFormSections form.sections s1 evs1
        rw [hs2] at h3
        simpa using h3
      cases err2 with
      | some m =>
        simp only [hq, hs2]
        rw [hf2, hf1]
        exact extractFirst_sublist _ s.forms
      | none =>
        simp only [hq, hs2]
        rw [hf2, hf1]
        exact extractFirst_sublist _ s.forms

/-- C1: deleting a Form does NOT remove every transitively owned
Sub-Question.  Concrete evaluation of `removeForm` on a Form whose Section
holds a Question with one Sub-Question: the call reports success, the Form
and Section and the Section's Question are gone, but the Sub-Question
(id 4) is still in the store, because form.js line 343 deletes
`question._id` again instead of the sub-question's id. -/
theorem c1_cascade_leaves_subquestion :
    (removeForm c1Store 1).1.isOk = true ∧
    (removeForm c1Store 1).2.1.forms = [] ∧
    (removeForm c1Store 1).2.1.sections = [] ∧
    ((removeForm c1Store 1).2.1.questions.map QuestionR.id) = [4] := by
  decide

/-- C2 (amended): during `removeForm`'s cascade the Form record itself is
deleted FIRST (its returned document drives the cascade), and all child
deletions follow it: the deletion-event trace is empty or starts with the
Form's deletion followed only by child deletions. -/
theorem c2_parent_deleted_first (s : Store) (fid : Nat) :
    (removeForm s fid).2.2 = [] ∨
    ∃ rest, (removeForm s fid).2.2 = Event.delForm fid :: rest ∧
      rest.all isChildDelete = true := by
  unfold removeForm
  cases h : (formDelete s fid).1 with
  | none => left; simp [h]
  | some form =>
    right
    rcases hq : cascadeFormQuestions (formDelete s fid).2 [Event.delForm fid] form.questions
      with ⟨s1, evs1, err1⟩
    obtain ⟨ex1, hex1, hall1⟩ :=
      cascadeFormQuestions_events form.questions (formDelete s fid).2 [Event.delForm fid]
    rw [hq] at hex1
    simp only at hex1
    cases err1 with
    | some m =>
      refine ⟨ex1, ?_, hall1⟩
      simp only [h, hq]
      simpa using hex1
    | none =>
      rcases hs2 : cascadeFormSections s1 evs1 form.sections with ⟨s2, evs2, err2⟩
      obtain ⟨ex2, hex2, hall2⟩ := cascadeFormSections_events form.sections s1 evs1
      rw [hs2] at hex2
      simp only at hex2
      have hevs : evs2 = Event.delForm fid :: (ex1 ++ ex2) := by
        rw [hex2, hex1]
        simp
      cases err2 with
      | some m =>
        refine ⟨ex1 ++ ex2, ?_, ?_⟩
        · simp [h, hq, hs2, hevs]
        · simp_all
      | none =>
        refine ⟨ex1 ++ ex2, ?_, ?_⟩
        · simp [h, hq, hs2, hevs]
        · simp_all

/-- C2 counterexample: on a Form with one direct child Question the
deletion-event trace is `[delForm 1, delQuestion 2]` — the child is
deleted AFTER the Form record, so the claimed children-before-parent order
is violated (while the delete itself succeeds). -/
theorem c2_counterexample :
    (removeForm c2Store 1).1.isOk = true ∧
    childrenBeforeParent ((removeForm c2Store 1).2.2) = false := by
  decide

/-- C9: `updateForm` never changes any stored Form's `signatures` — the
payload's `signatures` entry is deleted (form.js line 234) before
`FormDal.update` is issued, so every form's (id, signatures) pair is
preserved by every update call. -/
theorem c9_update_preserves_signatures (s : Store) (u : Actor) (fid : Nat) (req : FormReq) :
    ((updateForm s u fid req).2.forms.map (fun f => (f.id, f.signatures))) =
      s.forms.map (fun f => (f.id, f.signatures)) := by
  unfold updateForm
  split
  · rfl
  · split
    · rfl
    · split
      · rfl
      · split
        · exact map_updateFirst _ _ _
            (fun x => by simp [applyFormPatch, formReqPatch]) s.forms
        · rfl

theorem createFIB_options_err (s : Store) (u : Actor) (req : QuestionReq)
    (h : req.options.isSome = true) :
    (createFIB s u req).1.isErr = true ∧ (createFIB s u req).2 = s := by
  cases hperm : isPermitted u "CREATE" with
  | false => simp [createFIB, hperm, Res.isErr]
  | true =>
    cases hval : groupedOrFibHasErrors req with
    | true => simp [createFIB, hperm, hval, Res.isErr]
    | false =>
      cases hform : formFind s req.form with
      | none => simp [createFIB, hperm, hval, hform, Res.isErr]
      | some form =>
        cases hpar : resolveParent s req.parent_question with
        | err m => simp [createFIB, hperm, hval, hform, hpar, Res.isErr]
        | ok po =>
          cases hsec : resolveSection s req.«section» with
          | err m => simp [createFIB, hperm, hval, hform, hpar, hsec, Res.isErr]
          | ok so => simp [createFIB, hperm, hval, hform, hpar, hsec, h, Res.isErr]

/-- C7: a FILL_IN_BLANK creation request carrying a non-empty options
list fails (part_000 lines 340-342 reject any present `options`), and the
store — in particular the Question collection — is unchanged. -/
theorem c7_fib_rejects_options (s : Store) (u : Actor) (req : QuestionReq)
    (opts : List String) (h : req.options = some opts) (hne : opts ≠ []) :
    (createFIB s u req).1.isErr = true ∧ (createFIB s u req).2 = s :=
  createFIB_options_err s u req (by simp [h])

theorem c7_witness :
    c7Req.options = some ["a", "b"] ∧ (["a", "b"] : List String) ≠ [] ∧
    ((createFIB emptyStore wActor c7Req).1.isErr = true ∧
      (createFIB emptyStore wActor c7Req).2 = emptyStore) :=
  ⟨rfl, by decide, c7_fib_rejects_options emptyStore wActor c7Req ["a", "b"] rfl (by decide)⟩

/-- C8: a MULTIPLE_CHOICE or SINGLE_CHOICE creation request whose payload
lacks `options` or carries an empty list fails the `checkBody('options')
.notEmpty` validation (part_000 lines 424-425 and 546-547) and leaves the
store unchanged. -/
theorem c8_choice_requires_options (s : Store) (u : Actor) (req : QuestionReq)
    (h : req.options = none ∨ req.options = some []) :
    ((createMC s u req).1.isErr = true ∧ (createMC s u req).2 = s) ∧
    ((createSC s u req).1.isErr = true ∧ (createSC s u req).2 = s) := by
  have hval : choiceHasErrors req = true := by
    rcases h with h | h <;> simp [choiceHasErrors, optListEmpty, h]
  cases hperm : isPermitted u "CREATE" with
  | false => simp [createMC, createSC, hperm, Res.isErr]
  | true => simp [createMC, createSC, hperm, hval, Res.isErr]

theorem c8_witness :
    (c8Req.options = none ∨ c8Req.options = some []) ∧
    (((createMC emptyStore wActor c8Req).1.isErr = true ∧
        (createMC emptyStore wActor c8Req).2 = emptyStore) ∧
      ((createSC emptyStore wActor c8Req).1.isErr = true ∧
        (createSC emptyStore wActor c8Req).2 = emptyStore)) :=
  ⟨Or.inl rfl, c8_choice_requires_options emptyStore wActor c8Req (Or.inl rfl)⟩

/-- C3 counterexample: the claim as stated is false — a `createQuestion`
payload with `show: false` and a PRESENT but EMPTY `prerequisites` array
is accepted (an empty array is truthy in JavaScript, so part_000 line 85
does not fire), and a Question record is created. -/
theorem c3_counterexample :
    c3Req.«show» = some false ∧ c3Req.prerequisites = some [] ∧
    (createQuestion c3Store wActor c3Req).1.isOk = true ∧
    (createQuestion c3Store wActor c3Req).2.questions.length = 1 := by
  decide

/-- C3 (amended): creation fails when `show` is `false` and
`prerequisites` is ABSENT from the payload (part_000 line 85 tests JS
truthiness, so only a missing `prerequisites` — not an empty array —
triggers the failure), and the store is unchanged. -/
theorem c3_show_requires_prerequisites (s : Store) (u : Actor) (req : QuestionReq)
    (h1 : req.«show» = some false) (h2 : req.prerequisites = none) :
    (createQuestion s u req).1.isErr = true ∧ (createQuestion s u req).2 = s := by
  cases hperm : isPermitted u "CREATE" with
  | false => simp [createQuestion, hperm, Res.isErr]
  | true =>
    cases hval : questionCreateHasErrors req with
    | true => simp [createQuestion, hperm, hval, Res.isErr]
    | false =>
      cases hform : formFind s req.form with
      | none => simp [createQuestion, hperm, hval, hform, Res.isErr]
      | some form =>
        cases hdup : req.parent_question.isNone &&
            (questionFindByText s req.question_text).isSome with
        | true => simp [createQuestion, hperm, hval, hform, hdup, Res.isErr]
        | false =>
          have hpre : (showFalsy req.«show» && req.prerequisites.isNone) = true := by
            simp [showFalsy, h1, h2]
          simp [createQuestion, hperm, hval, hform, hdup, hpre, Res.isErr]

theorem c3_witness :
    c3aReq.«show» = some false ∧ c3aReq.prerequisites = none ∧
    ((createQuestion emptyStore wActor c3aReq).1.isErr = true ∧
      (createQuestion emptyStore wActor c3aReq).2 = emptyStore) :=
  ⟨rfl, rfl, c3_show_requires_prerequisites emptyStore wActor c3aReq rfl rfl⟩

/-- C10: every precondition failure of `createQuestion` — the referenced
Form missing, a duplicate question_text for a top-level request, `show`
false with `prerequisites` absent, a missing parent Question, or a missing
Section — produces an error with the store entirely unchanged: no Question
record is created and no Form, Section or parent-Question child list is
modified (part_000 lines 70-97 run all checks before any write). -/
theorem c10_create_failure_atomic (s : Store) (u : Actor) (req : QuestionReq)
    (h : formFind s req.form = none ∨
      (req.parent_question = none ∧ ∃ tx, req.question_text = some tx ∧
        ∃ q0 ∈ s.questions, q0.question_text = some tx) ∨
      (req.«show» = some false ∧ req.prerequisites = none) ∨
      (∃ pid, req.parent_question = some pid ∧ questionFind s (some pid) = none) ∨
      (∃ cid, req.«section» = some cid ∧ sectionFind s (some cid) = none)) :
    (createQuestion s u req).1.isErr = true ∧ (createQuestion s u req).2 = s := by
  cases hperm : isPermitted u "CREATE" with
  | false => simp [createQuestion, hperm, Res.isErr]
  | true =>
    cases hval : questionCreateHasErrors req with
    | true => simp [createQuestion, hperm, hval, Res.isErr]
    | false =>
      cases hform : formFind s req.form with
      | none => simp [createQuestion, hperm, hval, hform, Res.isErr]
      | some form =>
        cases hdup : req.parent_question.isNone &&
            (questionFindByText s req.question_text).isSome with
        | true => simp [createQuestion, hperm, hval, hform, hdup, Res.isErr]
        | false =>
          cases hpre : showFalsy req.«show» && req.prerequisites.isNone with
          | true => simp [createQuestion, hperm, hval, hform, hdup, hpre, Res.isErr]
          | false =>
            cases hpar : resolveParent s req.parent_question with
            | err m => simp [createQuestion, hperm, hval, hform, hdup, hpre, hpar, Res.isErr]
            | ok po =>
              cases hsec : resolveSection s req.«section» with
              | err m =>
                simp [createQuestion, hperm, hval, hform, hdup, hpre, hpar, hsec, Res.isErr]
              | ok so =>
                exfalso
                rcases h with h1 | ⟨hpq, tx, htx, q0, hq0, hq0t⟩ | ⟨hsf, hpn⟩
                  | ⟨pid, hpid, hnone⟩ | ⟨cid, hcid, hnone⟩
                · rw [hform] at h1
                  exact Option.noConfusion h1
                · have hsome : (questionFindByText s req.question_text).isSome = true := by
                    rw [htx]
                    unfold questionFindByText
                    refine List.find?_isSome.mpr ⟨q0, hq0, ?_⟩
                    simp [hq0t]
                  rw [hpq] at hdup
                  simp [hsome] at hdup
                · rw [hsf, hpn] at hpre
                  simp [showFalsy] at hpre
                · rw [hpid] at hpar
                  unfold resolveParent at hpar
                  simp [hnone] at hpar
                · rw [hcid] at hsec
                  unfold resolveSection at hsec
                  simp [hnone] at hsec

theorem c10_witness :
    formFind emptyStore c10Req.form = none ∧
    ((createQuestion emptyStore wActor c10Req).1.isErr = true ∧
      (createQuestion emptyStore wActor c10Req).2 = emptyStore) :=
  ⟨rfl, c10_create_failure_atomic emptyStore wActor c10Req (Or.inl rfl)⟩

/-- C4: a Question successfully created via `createQuestion` against a
sectionless Form, with neither `parent_question` nor `section` in the
payload, ends up in that Form's `questions` list exactly once (part_000
lines 123-133 append the freshly generated identifier, which — being
fresh — was not in the list before). -/
theorem c4_direct_attach_once (s : Store) (u : Actor) (req : QuestionReq)
    (fid : Nat) (f : FormR) (q : QuestionR)
    (hp : req.parent_question = none) (hs : req.«section» = none)
    (hf : req.form = some fid)
    (hfind : formFind s (some fid) = some f)
    (hnosec : f.has_sections = false)
    (hfresh : s.nextId ∉ f.questions)
    (hok : (createQuestion s u req).1 = Res.ok q) :
    ∃ f', formFind (createQuestion s u req).2 (some fid) = some f' ∧
      f'.questions.count q.id = 1 := by
  cases hperm : isPermitted u "CREATE" with
  | false => simp [createQuestion, hperm] at hok
  | true =>
  cases hval : questionCreateHasErrors req with
  | true => simp [createQuestion, hperm, hval] at hok
  | false =>
  have hff : formFind s req.form = some f := by rw [hf]; exact hfind
  cases hdup : req.parent_question.isNone &&
      (questionFindByText s req.question_text).isSome with
  | true => simp [createQuestion, hperm, hval, hff, hdup] at hok
  | false =>
  cases hpre : showFalsy req.«show» && req.prerequisites.isNone with
  | true => simp [createQuestion, hperm, hval, hff, hdup, hpre] at hok
  | false =>
  have hpar : resolveParent s req.parent_question = Res.ok none := by rw [hp]; rfl
  have hsec : resolveSection s req.«section» = Res.ok none := by rw [hs]; rfl
  have hfid : f.id = fid := by
    unfold formFind at hfind
    simpa using List.find?_some hfind
  have hq : q = mkQuestion s.nextId req req.qtype := by
    simp [createQuestion, hperm, hval, hff, hdup, hpre, hpar, hsec] at hok
    exact hok.symm
  have hst : (createQuestion s u req).2 =
      formUpdate (storeAddQuestion s (mkQuestion s.nextId req req.qtype)) f.id
        { questions := some (f.questions ++ [(mkQuestion s.nextId req req.qtype).id]) } := by
    simp [createQuestion, hperm, hval, hff, hdup, hpre, hpar, hsec, attachQuestion]
  refine ⟨applyFormPatch
      { questions := some (f.questions ++ [(mkQuestion s.nextId req req.qtype).id]) } f,
    ?_, ?_⟩
  · rw [hst]
    unfold formFind formUpdate storeAddQuestion
    simp only []
    rw [hfid]
    rw [find?_updateFirst (fun x : FormR => x.id == fid)
      (applyFormPatch
        { questions := some (f.questions ++ [(mkQuestion s.nextId req req.qtype).id]) })
      (fun x => by simp [applyFormPatch])]
    have hfind2 : List.find? (fun x : FormR => x.id == fid) s.forms = some f := by
      have h0 := hfind
      unfold formFind at h0
      simpa using h0
    rw [hfind2]
    rfl
  · rw [hq]
    simp [applyFormPatch, mkQuestion, List.count_append]
    exact List.count_eq_zero.mpr hfresh

theorem c4_witness :
    formFind c4Store (some 1) = some
      { id := 1, ftype := "LOAN_APPLICATION", title := "L", layout := none,
        has_sections := false, signatures := [], questions := [], sections := [],
        created_by := 9 } ∧
    (createQuestion c4Store wActor c4Req).1 =
      Res.ok (mkQuestion c4Store.nextId c4Req c4Req.qtype) ∧
    (∃ f', formFind (createQuestion c4Store wActor c4Req).2 (some 1) = some f' ∧
      f'.questions.count (mkQuestion c4Store.nextId c4Req c4Req.qtype).id = 1) :=
  ⟨by decide, by decide,
    c4_direct_attach_once c4Store wActor c4Req 1
      { id := 1, ftype := "LOAN_APPLICATION", title := "L", layout := none,
        has_sections := false, signatures := [], questions := [], sections := [],
        created_by := 9 }
      (mkQuestion c4Store.nextId c4Req c4Req.qtype)
      rfl rfl rfl (by decide) rfl (by decide) (by decide)⟩

/-- C6: when a `createQuestion` payload carries BOTH a `section` and a
`parent_question` reference and succeeds, the new identifier is appended
only to the parent Question's `sub_questions` (part_000 lines 102-111: the
parent branch wins); the Section collection and the Form collection are
left completely untouched. -/
theorem c6_parent_wins (s : Store) (u : Actor) (req : QuestionReq)
    (pid cid : Nat) (q : QuestionR)
    (hp : req.parent_question = some pid) (hs : req.«section» = some cid)
    (hok : (createQuestion s u req).1 = Res.ok q) :
    (∃ p0 p1, questionFind s (some pid) = some p0 ∧
      questionFind (createQuestion s u req).2 (some pid) = some p1 ∧
      p1.sub_questions = p0.sub_questions ++ [q.id]) ∧
    (createQuestion s u req).2.sections = s.sections ∧
    (createQuestion s u req).2.forms = s.forms := by
  cases hperm : isPermitted u "CREATE" with
  | false => simp [createQuestion, hperm] at hok
  | true =>
  cases hval : questionCreateHasErrors req with
  | true => simp [createQuestion, hperm, hval] at hok
  | false =>
  cases hform : formFind s req.form with
  | none => simp [createQuestion, hperm, hval, hform] at hok
  | some form =>
  cases hpre : showFalsy req.«show» && req.prerequisites.isNone with
  | true => simp [createQuestion, hperm, hval, hform, hp, hpre] at hok
  | false =>
  cases hq0 : questionFind s (some pid) with
  | none =>
    have hpar : resolveParent s (some pid) =
        Res.err "Parent Question Does Not Exist" := by
      unfold resolveParent
      simp [hq0]
    simp [createQuestion, hperm, hval, hform, hp, hpre, hpar] at hok
  | some p0 =>
  have hpar : resolveParent s (some pid) = Res.ok (some p0) := by
    unfold resolveParent
    simp [hq0]
  cases hc0 : sectionFind s (some cid) with
  | none =>
    have hsec : resolveSection s (some cid) = Res.err "Section Does Not Exist" := by
      unfold resolveSection
      simp [hc0]
    simp [createQuestion, hperm, hval, hform, hp, hs, hpre, hpar, hsec] at hok
  | some c0 =>
  have hsec : resolveSection s (some cid) = Res.ok (some c0) := by
    unfold resolveSection
    simp [hc0]
  have hdup : (req.parent_question.isNone &&
      (questionFindByText s req.question_text).isSome) = false := by
    simp [hp]
  have hqid : q = mkQuestion s.nextId req req.qtype := by
    simp [createQuestion, hperm, hval, hform, hp, hs, hdup, hpre, hpar, hsec] at hok
    exact hok.symm
  have hpid0 : p0.id = pid := by
    unfold questionFind at hq0
    simpa using List.find?_some hq0
  have hst : (createQuestion s u req).2 =
      questionUpdate (storeAddQuestion s (mkQuestion s.nextId req req.qtype)) p0.id
        { sub_questions :=
            some (p0.sub_questions ++ [(mkQuestion s.nextId req req.qtype).id]) } := by
    simp [createQuestion, hperm, hval, hform, hp, hs, hdup, hpre, hpar, hsec, attachQuestion]
  refine ⟨⟨p0, applyQuestionPatch
      { sub_questions :=
          some (p0.sub_questions ++ [(mkQuestion s.nextId req req.qtype).id]) } p0,
      rfl, ?_, ?_⟩, ?_, ?_⟩
  · rw [hst]
    unfold questionFind questionUpdate storeAddQuestion
    simp only []
    rw [hpid0]
    rw [find?_updateFirst (fun x : QuestionR => x.id == pid)
      (applyQuestionPatch
        { sub_questions :=
            some (p0.sub_questions ++ [(mkQuestion s.nextId req req.qtype).id]) })
      (fun x => by simp [applyQuestionPatch])]
    have hq0b : List.find? (fun x : QuestionR => x.id == pid) s.questions = some p0 := by
      have h0 := hq0
      unfold questionFind at h0
      simpa using h0
    rw [find?_append_some _ _ _ _ hq0b]
    rfl
  · rw [hqid]
    simp [applyQuestionPatch]
  · rw [hst]
    rfl
  · rw [hst]
    rfl

theorem c6_witness :
    (createQuestion c6Store wActor c6Req).1 =
      Res.ok (mkQuestion c6Store.nextId c6Req c6Req.qtype) ∧
    ((∃ p0 p1, questionFind c6Store (some 2) = some p0 ∧
        questionFind (createQuestion c6Store wActor c6Req).2 (some 2) = some p1 ∧
        p1.sub_questions = p0.sub_questions ++
          [(mkQuestion c6Store.nextId c6Req c6Req.qtype).id]) ∧
      (createQuestion c6Store wActor c6Req).2.sections = c6Store.sections ∧
      (createQuestion c6Store wActor c6Req).2.forms = c6Store.forms) :=
  ⟨by decide,
    c6_parent_wins c6Store wActor c6Req 2 3
      (mkQuestion c6Store.nextId c6Req c6Req.qtype) rfl rfl (by decide)⟩

theorem mapFtype_formUpdate_none (s : Store) (fid : Nat) (p : FormPatch)
    (h : p.ftype = none) :
    (formUpdate s fid p).forms.map FormR.ftype = s.forms.map FormR.ftype := by
  unfold formUpdate
  exact map_updateFirst _ _ _ (fun x => by simp [applyFormPatch, h]) s.forms

theorem mapFtype_attachQuestion (s : Store) (nid : Nat) (form : FormR)
    (po : Option QuestionR) (so : Option SectionR) :
    (attachQuestion s nid form po so).forms.map FormR.ftype =
      s.forms.map FormR.ftype := by
  unfold attachQuestion
  cases po with
  | some parent => simp
  | none =>
    cases so with
    | some c => simp
    | none => exact mapFtype_formUpdate_none _ _ _ rfl

theorem mapFtype_createQuestion (s : Store) (u : Actor) (req : QuestionReq) :
    (createQuestion s u req).2.forms.map FormR.ftype = s.forms.map FormR.ftype := by
  unfold createQuestion
  repeat' split
  all_goals simp [mapFtype_attachQuestion]

theorem mapFtype_createGrouped (s : Store) (u : Actor) (req : QuestionReq) :
    (createGrouped s u req).2.forms.map FormR.ftype = s.forms.map FormR.ftype := by
  unfold createGrouped
  repeat' split
  all_goals simp [mapFtype_attachQuestion]

theorem mapFtype_createFIB (s : Store) (u : Actor) (req : QuestionReq) :
    (createFIB s u req).2.forms.map FormR.ftype = s.forms.map FormR.ftype := by
  unfold createFIB
  repeat' split
  all_goals simp [mapFtype_attachQuestion]

theorem mapFtype_createMC (s : Store) (u : Actor) (req : QuestionReq) :
    (createMC s u req).2.forms.map FormR.ftype = s.forms.map FormR.ftype := by
  unfold createMC
  repeat' split
  all_goals simp [mapFtype_attachQuestion]

theorem mapFtype_createSC (s : Store) (u : Actor) (req : QuestionReq) :
    (createSC s u req).2.forms.map FormR.ftype = s.forms.map FormR.ftype := by
  unfold createSC
  repeat' split
  all_goals simp [mapFtype_attachQuestion]

theorem mapFtype_createYN (s : Store) (u : Actor) (req : QuestionReq) :
    (createYN s u req).2.forms.map FormR.ftype = s.forms.map FormR.ftype := by
  unfold createYN
  repeat' split
  all_goals simp [mapFtype_attachQuestion]

theorem mapFtype_updateQuestion (s : Store) (u : Actor) (qid : Nat) (p : QuestionPatch) :
    (updateQuestion s u qid p).2.forms.map FormR.ftype = s.forms.map FormR.ftype := by
  unfold updateQuestion
  repeat' split
  all_goals simp

theorem forms_removeFromSections (qid : Nat) (l : List Nat) :
    ∀ s : Store, (removeFromSections qid s l).forms = s.forms := by
  induction l with
  | nil => intro s; rfl
  | cons cid rest ih =>
    intro s
    unfold removeFromSections
    cases h : sectionFind s (some cid) <;> simp [h, ih]

theorem mapFtype_removeQuestion (s : Store) (qid : Nat) (pc fc : Option Nat) :
    (removeQuestion s qid pc fc).2.forms.map FormR.ftype = s.forms.map FormR.ftype := by
  unfold removeQuestion
  cases h0 : questionFind s (some qid) with
  | none => simp [h0]
  | some q =>
    cases h1 : (questionDelete s qid).1 with
    | none => simp [h0, h1]
    | some q0 =>
      cases pc with
      | some pid =>
        cases h2 : questionFind (questionDelete s qid).2 (some pid) with
        | none => simp [h0, h1, h2]
        | some parent => simp [h0, h1, h2]
      | none =>
        cases fc with
        | none => simp [h0, h1]
        | some fid =>
          cases h3 : formFind (questionDelete s qid).2 (some fid) with
          | none => simp [h0, h1, h3]
          | some form =>
            simp only [h0, h1, h3]
            rw [forms_removeFromSections]
            rw [mapFtype_formUpdate_none _ _ _ rfl]
            simp

theorem mapFtype_createSection (s : Store) (u : Actor) (req : SectionReq) :
    (createSection s u req).2.forms.map FormR.ftype = s.forms.map FormR.ftype := by
  unfold createSection
  repeat' split
  all_goals simp [mapFtype_formUpdate_none]

theorem mapFtype_updateSection (s : Store) (u : Actor) (cid : Nat) (p : SectionPatch) :
    (updateSection s u cid p).2.forms.map FormR.ftype = s.forms.map FormR.ftype := by
  unfold updateSection
  repeat' split
  all_goals simp

theorem mapFtype_removeSection (s : Store) (cid : Nat) (fc : Option Nat) :
    (removeSection s cid fc).2.forms.map FormR.ftype = s.forms.map FormR.ftype := by
  unfold removeSection
  cases h : (sectionDelete s cid).1 with
  | none => simp [h]
  | some c =>
    cases hf : formFind (sectionDelete s cid).2 fc with
    | none => simp [h, hf]
    | some form =>
      rcases hc : cascadeSectionQuestions (sectionDelete s cid).2 [] c.questions
        with ⟨s2, evs2, err2⟩
      have hforms : s2.forms = s.forms := by
        have h2 := forms_cascadeSectionQuestions c.questions (sectionDelete s cid).2 []
        rw [hc] at h2
        simpa using h2
      cases err2 with
      | some m => simp [h, hf, hc, hforms]
      | none =>
        simp only [h, hf, hc]
        rw [mapFtype_formUpdate_none _ _ _ rfl, hforms]

theorem mapFtype_updateForm (s : Store) (u : Actor) (fid : Nat) (req : FormReq) :
    (updateForm s u fid req).2.forms.map FormR.ftype = s.forms.map FormR.ftype := by
  unfold updateForm
  cases hperm : isPermitted u "UPDATE" with
  | false => simp [hperm]
  | true =>
    cases hval : formUpdateHasErrors req with
    | true => simp [hperm, hval]
    | false =>
      cases hfd : formFind s (some fid) with
      | none => simp [hperm, hval, hfd]
      | some form =>
        by_cases hty : req.ftype = some form.ftype
        · simp only [hperm, hval, hfd, hty, if_pos]
          have hfd2 : List.find? (fun x : FormR => x.id == fid) s.forms = some form := by
            have h0 := hfd
            unfold formFind at h0
            simpa using h0
          unfold formUpdate
          refine map_updateFirst_found _ _ _ s.forms form hfd2 ?_
          simp [applyFormPatch, formReqPatch, hty]
        · simp [hperm, hval, hfd, hty]

theorem uniqueTypes_createForm (s : Store) (u : Actor) (req : FormReq)
    (h : UniqueTypes s) : UniqueTypes (createForm s u req).2 := by
  unfold createForm
  cases hperm : isPermitted u "CREATE" with
  | false => simpa [hperm] using h
  | true =>
    cases hval : formCreateHasErrors req with
    | true => simpa [hperm, hval] using h
    | false =>
      cases hfd : formFindByType s req.ftype with
      | some f0 => simpa [hperm, hval, hfd] using h
      | none =>
        simp only [hperm, hval, hfd]
        cases hft : req.ftype with
        | none =>
          rw [hft] at hfd
          unfold formFindByType at hfd
          have hnil : s.forms = [] := by
            cases hfo : s.forms with
            | nil => rfl
            | cons a l => rw [hfo] at hfd; simp at hfd
          unfold UniqueTypes
          simp [hnil]
        | some t =>
          rw [hft] at hfd
          unfold formFindByType at hfd
          simp only at hfd
          have hnot : ∀ f ∈ s.forms, f.ftype ≠ t := by
            intro f hf
            have h2 := List.find?_eq_none.mp hfd f hf
            simpa using h2
          have hmk : (mkForm s.nextId u req).ftype = t := by simp [mkForm, hft]
          show ((s.forms ++ [mkForm s.nextId u req]).map FormR.ftype).Nodup
          rw [List.map_append]
          refine List.Nodup.append h (by simp) ?_
          intro a ha hb
          simp only [List.map_cons, List.map_nil, List.mem_singleton, hmk] at hb
          obtain ⟨f, hf, hfa⟩ := List.mem_map.mp ha
          exact hnot f hf (by rw [hfa, hb])

theorem uniqueTypes_applyOp (s : Store) (op : Op) (h : UniqueTypes s) :
    UniqueTypes (applyOp s op) := by
  cases op with
  | opCreateForm u req => exact uniqueTypes_createForm s u req h
  | opUpdateForm u fid req =>
    unfold applyOp UniqueTypes
    rw [mapFtype_updateForm]
    exact h
  | opRemoveForm fid =>
    unfold applyOp UniqueTypes
    exact h.sublist ((forms_removeForm_sublist s fid).map FormR.ftype)
  | opCreateQuestion u req =>
    unfold applyOp UniqueTypes
    rw [mapFtype_createQuestion]
    exact h
  | opCreateGrouped u req =>
    unfold applyOp UniqueTypes
    rw [mapFtype_createGrouped]
    exact h
  | opCreateFIB u req =>
    unfold applyOp UniqueTypes
    rw [mapFtype_createFIB]
    exact h
  | opCreateMC u req =>
    unfold applyOp UniqueTypes
    rw [mapFtype_createMC]
    exact h
  | opCreateSC u req =>
    unfold applyOp UniqueTypes
    rw [mapFtype_createSC]
    exact h
  | opCreateYN u req =>
    unfold applyOp UniqueTypes
    rw [mapFtype_createYN]
    exact h
  | opUpdateQuestion u qid p =>
    unfold applyOp UniqueTypes
    rw [mapFtype_updateQuestion]
    exact h
  | opRemoveQuestion qid pc fc =>
    unfold applyOp UniqueTypes
    rw [mapFtype_removeQuestion]
    exact h
  | opCreateSection u req =>
    unfold applyOp UniqueTypes
    rw [mapFtype_createSection]
    exact h
  | opUpdateSection u cid p =>
    unfold applyOp UniqueTypes
    rw [mapFtype_updateSection]
    exact h
  | opRemoveSection cid fc =>
    unfold applyOp UniqueTypes
    rw [mapFtype_removeSection]
    exact h

theorem uniqueTypes_foldl (ops : List Op) : ∀ s : Store, UniqueTypes s →
    UniqueTypes (ops.foldl applyOp s) := by
  induction ops with
  | nil => intro s h; simpa using h
  | cons op rest ih =>
    intro s h
    simpa using ih (applyOp s op) (uniqueTypes_applyOp s op h)

theorem createForm_conflict (s : Store) (u : Actor) (req : FormReq) (t : String)
    (ht : req.ftype = some t) (hex : ∃ f ∈ s.forms, f.ftype = t) :
    (createForm s u req).1.isErr = true ∧ (createForm s u req).2 = s := by
  cases hperm : isPermitted u "CREATE" with
  | false => simp [createForm, hperm, Res.isErr]
  | true =>
    cases hval : formCreateHasErrors req with
    | true => simp [createForm, hperm, hval, Res.isErr]
    | false =>
      obtain ⟨f, hf, hft⟩ := hex
      have hfd : (formFindByType s req.ftype).isSome = true := by
        rw [ht]
        unfold formFindByType
        refine List.find?_isSome.mpr ⟨f, hf, ?_⟩
        simp [hft]
      cases hfd2 : formFindByType s req.ftype with
      | none => rw [hfd2] at hfd; simp at hfd
      | some f0 => simp [createForm, hperm, hval, hfd2, Res.isErr]

/-- C5: starting from the empty store, every state reachable by the
exposed operations holds at most one Form per `type` value, and on any
reachable state `createForm` for an already-present `type` fails with the
conflict error, leaving the store unchanged (form.js lines 72-75); no
other operation creates a Form or changes a Form's `type`. -/
theorem c5_type_unique_invariant (ops : List Op) :
    UniqueTypes (execOps ops) ∧
    ∀ (u : Actor) (req : FormReq) (t : String), req.ftype = some t →
      (∃ f ∈ (execOps ops).forms, f.ftype = t) →
      (createForm (execOps ops) u req).1.isErr = true ∧
      (createForm (execOps ops) u req).2 = execOps ops := by
  constructor
  · exact uniqueTypes_foldl ops emptyStore (by simp [UniqueTypes, emptyStore])
  · intro u req t ht hex
    exact createForm_conflict (execOps ops) u req t ht hex

theorem c5_witness :
    c5Req.ftype = some "SCREENING" ∧
    (∃ f ∈ (execOps c5Ops).forms, f.ftype = "SCREENING") ∧
    (UniqueTypes (execOps c5Ops) ∧
      ((createForm (execOps c5Ops) wActor c5Req).1.isErr = true ∧
        (createForm (execOps c5Ops) wActor c5Req).2 = execOps c5Ops)) :=
  ⟨rfl, by decide,
    (c5_type_unique_invariant c5Ops).1,
    (c5_type_unique_invariant c5Ops).2 wActor c5Req "SCREENING" rfl (by decide)⟩
